import Mathlib

/-!
Verification of the Market-server repository (two variants of `server.js` and
one unnamed websocket server file) against its natural-language specification.

The embedding is shallow: each Express route handler becomes a Lean function
from an explicit server state and a parsed request to a new state, an HTTP
response, and (where the handler broadcasts) a list of observable events.
JavaScript `undefined` is modelled by `Option.none`; JSON values by the
`Json` inductive below; SQLite rows by Lean structures.
-/

/-- JSON value, as produced by `JSON.stringify` / consumed by `res.json`.
Object fields are an ordered association list, matching the key order of the
object literals in the source. -/
inductive Json where
  | null
  | bool (b : Bool)
  | num (q : ℚ)
  | str (s : String)
  | arr (elems : List Json)
  | obj (fields : List (String × Json))

/-- Field access on a JSON object; `none` on a missing key or a non-object. -/
def Json.lookup (j : Json) (k : String) : Option Json :=
  match j with
  | .obj fs => fs.lookup k
  | _ => none

/-- Whether a JSON value is an array. -/
def Json.isArr : Json → Bool
  | .arr _ => true
  | _ => false

/-- Whether a JSON object has the given key. -/
def Json.hasKey (j : Json) (k : String) : Bool :=
  (j.lookup k).isSome

/-- Whether a JSON object carries a string field named `type` equal to `t`
(the discriminator used by the websocket messages in the source). -/
def Json.tagIs (j : Json) (t : String) : Bool :=
  match j.lookup "type" with
  | some (.str u) => u == t
  | _ => false

/-- An HTTP response: status code plus JSON body.  `res.json(x)` responds with
status 200; `res.status(n).json(x)` with status `n`. -/
structure HttpResponse where
  status : Nat
  body : Json

/-- JavaScript truthiness test for an optional string form field: `!x` is
true exactly when the field is absent (`undefined`) or the empty string. -/
def falsy : Option String → Bool
  | none => true
  | some s => s == ""

/-- Numeric value of a list of decimal digit characters (empty list is 0). -/
def decVal (cs : List Char) : ℕ :=
  cs.foldl (fun a c => 10 * a + (c.toNat - '0'.toNat)) 0

/-- Exponent part of a JS float literal after the `e`/`E` marker: optional
sign then digits; an empty digit run means the exponent part is not part of
the longest valid numeric prefix, so it contributes 0. -/
def expOf (cs : List Char) : ℤ :=
  let sgn : ℤ × List Char :=
    match cs with
    | '-' :: r => (-1, r)
    | '+' :: r => (1, r)
    | _ => (1, cs)
  let ds := sgn.2.takeWhile (·.isDigit)
  if ds.isEmpty then 0 else sgn.1 * (decVal ds : ℤ)

/-- Model of JavaScript `parseFloat` on a string: skip leading whitespace,
read an optional sign, then the longest prefix of the form
`digits [. digits] [(e|E) [sign] digits]`; if no digit is read the result is
NaN, modelled as `none`.  Finite values are returned as exact rationals
(IEEE-754 rounding and the `Infinity` literal are outside this model; every
input the development evaluates is exactly representable). -/
def parseFloat (s : String) : Option ℚ :=
  let cs0 := s.data.dropWhile (·.isWhitespace)
  let signed : ℤ × List Char :=
    match cs0 with
    | '-' :: r => (-1, r)
    | '+' :: r => (1, r)
    | _ => (1, cs0)
  let intPart := signed.2.takeWhile (·.isDigit)
  let afterInt := signed.2.dropWhile (·.isDigit)
  let fracSplit : List Char × List Char :=
    match afterInt with
    | '.' :: r => (r.takeWhile (·.isDigit), r.dropWhile (·.isDigit))
    | _ => ([], afterInt)
  if intPart.isEmpty && fracSplit.1.isEmpty then none
  else
    let mant : ℤ := signed.1 * (decVal (intPart ++ fracSplit.1) : ℤ)
    let e : ℤ :=
      (match fracSplit.2 with
       | 'e' :: r => expOf r
       | 'E' :: r => expOf r
       | _ => 0) - (fracSplit.1.length : ℤ)
    some ((mant : ℚ) * (10 : ℚ) ^ e)

/-- A parsed product submission as the route handlers see it: the multipart
text fields of `req.body` (`none` models a field absent from the form, i.e.
JS `undefined`) and, in `file`, the filename that multer generated for the
uploaded image (`none` when no file was attached; multer writes the file to
the uploads directory before the route handler runs).  The second variant
names the contact field `whatsapp_number`; it is the same datum. -/
structure Submission where
  name : Option String
  description : Option String
  price : Option String
  whatsapp : Option String
  file : Option String
deriving DecidableEq, Repr

namespace VariantA

/-- A connected websocket client of the first `server.js` variant: its
identity and whether `readyState === WebSocket.OPEN`.  `wss.clients` is a
`Set`, so a state built by the server never holds two entries with the same
`cid`. -/
structure Client where
  cid : Nat
  ready : Bool
deriving DecidableEq, Repr

/-- A row of the `products` table of the first variant
(`id INTEGER PRIMARY KEY, name, description, price REAL, image, whatsapp`).
`price` keeps the bound string from the form (the claims never depend on
SQLite's REAL-affinity text conversion). -/
structure Row where
  id : Nat
  name : String
  description : String
  price : String
  image : String
  whatsapp : String
deriving DecidableEq, Repr

/-- Server state of the first variant: the products table in insertion order
(newest first), the committed upload files, and the connected clients. -/
structure State where
  rows : List Row
  blobs : List String
  clients : List Client

/-- Observable events of one request, in the order the handler performs
them. -/
inductive Ev where
  | blobCommit (f : String)
  | insertRow (id : Nat)
  | send (cid : Nat) (msg : Json)
  | respond (status : Nat)

/-- Rowid SQLite assigns on insert into a table declared
`id INTEGER PRIMARY KEY` with no explicit id: one more than the largest
existing rowid (the table is append-only, no delete path exists). -/
def nextId (rows : List Row) : Nat :=
  (rows.map Row.id).foldr max 0 + 1

/-- JSON for the `newProduct` object literal of the first variant:
`{ name, description, price, image, whatsapp }` - note it carries neither
the assigned `id` nor any timestamp. -/
def mkProductJson (name desc price image whats : String) : Json :=
  .obj [("name", .str name), ("description", .str desc), ("price", .str price),
        ("image", .str image), ("whatsapp", .str whats)]

/-- Whether a submission passes every precondition for the first variant's
insert to succeed: the handler's own check `!name || !price || !whatsapp ||
!image` must pass, and `description` must be present because better-sqlite3
refuses to bind `undefined` (`.run(name, description, ...)` throws a
`TypeError` on an undefined parameter). -/
def validA (sub : Submission) : Bool :=
  !falsy sub.name && !falsy sub.price && !falsy sub.whatsapp
    && sub.file.isSome && sub.description.isSome

/-- The `POST /api/upload` handler of the first variant.  Multer commits the
uploaded file first; the handler then validates `name`, `price`, `whatsapp`
and the image (responding 400 without deleting the committed file), inserts
the row, broadcasts `{type: "new-product", product}` to every client whose
`readyState` is OPEN, and responds `res.json({success, product})` (status
200).  A submission without `description` makes the insert throw
(better-sqlite3 cannot bind `undefined`); the handler has no try/catch, so
Express answers 500 and nothing is rolled back. -/
def postUpload (s : State) (sub : Submission) : State × HttpResponse × List Ev :=
  let s1 : State :=
    match sub.file with
    | some f => { s with blobs := f :: s.blobs }
    | none => s
  let commitEvs : List Ev :=
    match sub.file with
    | some f => [.blobCommit f]
    | none => []
  let image : Option String := sub.file.map (fun f => "/uploads/" ++ f)
  if falsy sub.name || falsy sub.price || falsy sub.whatsapp || image.isNone then
    (s1, ⟨400, .obj [("error", .str "Missing required fields.")]⟩,
     commitEvs ++ [.respond 400])
  else
    match sub.description with
    | none =>
      (s1, ⟨500, .null⟩, commitEvs ++ [.respond 500])
    | some desc =>
      let rid := nextId s1.rows
      let row : Row :=
        { id := rid, name := sub.name.getD "", description := desc,
          price := sub.price.getD "", image := (image.getD ""),
          whatsapp := sub.whatsapp.getD "" }
      let productJson := mkProductJson row.name desc row.price row.image row.whatsapp
      let msg : Json := .obj [("type", .str "new-product"), ("product", productJson)]
      let sends := (s.clients.filter Client.ready).map (fun c => Ev.send c.cid msg)
      ({ s1 with rows := row :: s1.rows },
       ⟨200, .obj [("success", .bool true), ("product", productJson)]⟩,
       commitEvs ++ [.insertRow rid] ++ sends ++ [.respond 200])

/-- Event trace of one `POST /api/upload` request. -/
def uploadEvents (s : State) (sub : Submission) : List Ev :=
  (postUpload s sub).2.2

/-- The `GET /api/products` handler of the first variant:
`SELECT * FROM products ORDER BY id DESC`. -/
def getProducts (s : State) : List Row :=
  s.rows.insertionSort (fun a b => b.id ≤ a.id)

/-- Messages the first variant sends to a client when it connects: exactly
the welcome object, no snapshot. -/
def connectMessages : List Json :=
  [.obj [("type", .str "welcome"), ("message", .str "Connected!")]]

/-- Event discriminators used by the theorems. -/
def isSendTo (cid : Nat) : Ev → Bool
  | .send c _ => c == cid
  | _ => false

def isSendEv : Ev → Bool
  | .send _ _ => true
  | _ => false

def isInsertEv : Ev → Bool
  | .insertRow _ => true
  | _ => false

end VariantA

namespace VariantB

/-- A row of the second variant's `products` table
(`id INTEGER PRIMARY KEY AUTOINCREMENT, user_id, name, description, price,
image_url, whatsapp_number, created_at`).  `price` is `none` when SQLite
stores NULL (binding the JS number `NaN` stores NULL); `createdAt` is the
`CURRENT_TIMESTAMP` stamp, modelled as a natural number supplied per
request. -/
structure Row where
  id : Nat
  userId : Nat
  name : String
  description : String
  price : Option ℚ
  imageUrl : Option String
  whatsapp : String
  createdAt : Nat
deriving DecidableEq, Repr

/-- Server state of the second variant: the `users` table (its row ids), the
`sqlite_sequence` counter of the AUTOINCREMENT `products` table (largest id
ever assigned), the `products` rows newest-first, and the committed upload
files. -/
structure State where
  users : List Nat
  seq : Nat
  rows : List Row
  blobs : List String

/-- The fresh-database state produced by `connectAndInitializeDB` (tables
created empty), with an arbitrary set of user rows subsequently registered
via `POST /api/register`. -/
def init (users : List Nat) : State :=
  { users := users, seq := 0, rows := [], blobs := [] }

/-- The placeholder seller identity: `const userId = 1`. -/
def userId : Nat := 1

/-- The second variant runs `PRAGMA foreign_keys = ON` at startup, so the
`FOREIGN KEY (user_id) REFERENCES users(id)` constraint of the products
table is enforced on every insert. -/
def fkEnabled : Bool := true

/-- Persisted price of the second variant: `parseFloat(price || 0)`.  An
absent field (`undefined`) and the empty string are both JS-falsy, so the
argument becomes the number 0 and `parseFloat` yields 0; otherwise the
string is parsed, giving NaN (stored as NULL, modelled `none`) on a
non-numeric string. -/
def jsPrice (price : Option String) : Option ℚ :=
  match price with
  | none => some 0
  | some s => if s == "" then some 0 else parseFloat s

/-- Deleting the committed upload (`fs.unlink(req.file.path, ...)`) from the
blob store; a no-op when no file was attached. -/
def unlinkUpload (s : State) (file : Option String) : State :=
  match file with
  | some f => { s with blobs := s.blobs.erase f }
  | none => s

/-- The `stmt.run` of the product INSERT.  Binding happens first:
better-sqlite3 throws a `TypeError` when a parameter is `undefined`, which
the absent `description` field is.  Then SQLite enforces the enabled
foreign key: with no `users` row whose id is `userId`, the insert fails
with a constraint error.  On success the AUTOINCREMENT id `seq + 1` is
assigned and the row is appended. -/
def insertProduct (s : State) (sub : Submission) (imageUrl : Option String)
    (now : Nat) : Except String (State × Nat) :=
  match sub.description with
  | none => .error "SQLite3 can only bind numbers, strings, bigints, buffers, and null"
  | some desc =>
    if fkEnabled && !(s.users.contains userId) then
      .error "FOREIGN KEY constraint failed"
    else
      let rid := s.seq + 1
      let row : Row :=
        { id := rid, userId := userId, name := sub.name.getD "",
          description := desc, price := jsPrice sub.price,
          imageUrl := imageUrl, whatsapp := sub.whatsapp.getD "",
          createdAt := now }
      .ok ({ s with rows := row :: s.rows, seq := rid }, rid)

/-- The `POST /api/products` handler of the second variant.  Multer commits
the uploaded file first.  Missing `name` or `whatsapp_number` deletes the
committed file and responds 400.  Otherwise the insert runs; on any insert
error the catch block deletes the committed file and responds 500.  On
success it responds 201 with `{ message, productId, imageUrl }` - but the
source reads `info.lastInsertRowId`, while better-sqlite3's RunResult
exposes `lastInsertRowid`, so the value is `undefined` and
`JSON.stringify` drops the `productId` key from the body. -/
def postProducts (s : State) (sub : Submission) (now : Nat) : State × HttpResponse :=
  let s1 : State :=
    match sub.file with
    | some f => { s with blobs := f :: s.blobs }
    | none => s
  let imageUrl : Option String := sub.file.map (fun f => "/uploads/" ++ f)
  if falsy sub.name || falsy sub.whatsapp then
    (unlinkUpload s1 sub.file,
     ⟨400, .obj [("message", .str "Product name and WhatsApp number are required.")]⟩)
  else
    match insertProduct s1 sub imageUrl now with
    | .ok (s2, _) =>
      (s2, ⟨201, .obj [("message", .str "Product uploaded successfully"),
                       ("imageUrl", match imageUrl with
                                    | some u => .str u
                                    | none => .null)]⟩)
    | .error msg =>
      (unlinkUpload s1 sub.file,
       ⟨500, .obj [("message", .str "Error uploading product"), ("error", .str msg)]⟩)

/-- The `GET /api/products` handler of the second variant:
`SELECT ... FROM products ORDER BY created_at DESC`. -/
def getProducts (s : State) : List Row :=
  s.rows.insertionSort (fun a b => b.createdAt ≤ a.createdAt)

/-- A sequence of `POST /api/products` requests (each with its
`CURRENT_TIMESTAMP` stamp) applied in order, collecting the id the store
assigned for every request that succeeded (status 201; on success the
state's sequence counter equals the id just assigned). -/
def run : State → List (Submission × Nat) → State × List Nat
  | s, [] => (s, [])
  | s, (sub, now) :: rest =>
    let step := postProducts s sub now
    let tail := run step.1 rest
    if step.2.status == 201 then (tail.1, step.1.seq :: tail.2) else tail

end VariantB

namespace Unnamed

/-- The hard-coded in-memory `products` array of the unnamed websocket
server file, as JSON. -/
def productsList : List Json :=
  [.obj [("name", .str "Rice 25kg"), ("description", .str "Premium long grain rice"),
         ("price", .num 14000), ("image", .str "rice.jpg"),
         ("whatsapp", .str "2347012345678")],
   .obj [("name", .str "Red Oil 5L"), ("description", .str "Pure red palm oil"),
         ("price", .num 6000), ("image", .str "oil.jpg"),
         ("whatsapp", .str "2348098765432")]]

/-- Messages the unnamed variant sends to a client on connection: none (the
connection handler only installs a message listener). -/
def connectMessages : List Json := []

/-- The client request that asks for the product list. -/
def getProductsReq : Json := .obj [("type", .str "getProducts")]

/-- The unnamed variant's websocket message handler: on a parsed message
whose `type` is `getProducts` it replies with
`{type: "products", data: products}`; any other message gets no reply. -/
def handleMessage (m : Json) : List Json :=
  match m.lookup "type" with
  | some (.str t) =>
    if t == "getProducts" then
      [.obj [("type", .str "products"), ("data", .arr productsList)]]
    else []
  | _ => []

end Unnamed

namespace VariantA

/-- Payload of a send event, if any. -/
def sendPayload : Ev → Option Json
  | .send _ m => some m
  | _ => none

end VariantA

/-- A complete, valid submission (the spec's Rice scenario with an image and
a description attached). -/
def exSubValid : Submission :=
  { name := some "Rice 25kg", description := some "Premium long grain rice",
    price := some "14000", whatsapp := some "2347012345678",
    file := some "1712-rice.jpg" }

/-- A submission with an uploaded image but no name. -/
def exSubNoName : Submission :=
  { name := none, description := some "d", price := some "5",
    whatsapp := some "2347012345678", file := some "1712-rice.jpg" }

/-- The spec's no-image scenario: name, price and contact present,
description attached, no file. -/
def exSubNoImage : Submission :=
  { name := some "Rice 25kg", description := some "desc",
    price := some "14000", whatsapp := some "2347012345678", file := none }

/-- A submission whose price field is the numeric string -5. -/
def exSubNegPrice : Submission :=
  { name := some "Widget", description := some "d", price := some "-5",
    whatsapp := some "2347012345678", file := none }

/-- First-variant state with no rows, no blobs, no connected clients. -/
def exStateA0 : VariantA.State := { rows := [], blobs := [], clients := [] }

/-- First-variant state with one OPEN client (cid 0) and one non-OPEN
client (cid 1). -/
def exStateA2 : VariantA.State :=
  { rows := [], blobs := [], clients := [⟨0, true⟩, ⟨1, false⟩] }

/-- Second-variant fresh state in which a seller with id 1 exists. -/
def exStateB1 : VariantB.State := VariantB.init [1]

/-- Second-variant fresh state with no users registered. -/
def exStateB0 : VariantB.State := VariantB.init []

/-- The messages actually sent over the websocket during a valid upload
against a state with one OPEN and one non-OPEN client. -/
def exSendMsgs : List Json :=
  (VariantA.uploadEvents exStateA2 exSubValid).filterMap VariantA.sendPayload

/-- The broadcast message produced by the valid fixture submission. -/
def exBroadcastMsg : Json :=
  Json.obj [("type", Json.str "new-product"),
            ("product", VariantA.mkProductJson "Rice 25kg" "Premium long grain rice"
               "14000" "/uploads/1712-rice.jpg" "2347012345678")]

instance : IsTotal VariantA.Row (fun a b => b.id ≤ a.id) :=
  ⟨fun a b => Nat.le_total b.id a.id⟩

instance : IsTrans VariantA.Row (fun a b => b.id ≤ a.id) :=
  ⟨fun _ _ _ h1 h2 => Nat.le_trans h2 h1⟩

instance : IsTotal VariantB.Row (fun a b => b.createdAt ≤ a.createdAt) :=
  ⟨fun a b => Nat.le_total b.createdAt a.createdAt⟩

instance : IsTrans VariantB.Row (fun a b => b.createdAt ≤ a.createdAt) :=
  ⟨fun _ _ _ h1 h2 => Nat.le_trans h2 h1⟩

/-- C7: in both variants, `GET /api/products` returns every persisted row
exactly once (a permutation of the table) in descending order of the
ordering key: `ORDER BY created_at DESC` in the variant that has a
`created_at` column, `ORDER BY id DESC` (equivalently newest first, ids
being assigned increasingly) in the other. -/
theorem C7_snapshot_order :
    ∀ (sA : VariantA.State) (sB : VariantB.State),
      List.Perm (VariantA.getProducts sA) sA.rows
      ∧ List.Sorted (fun a b => b.id ≤ a.id) (VariantA.getProducts sA)
      ∧ List.Perm (VariantB.getProducts sB) sB.rows
      ∧ List.Sorted (fun a b => b.createdAt ≤ a.createdAt) (VariantB.getProducts sB) :=
  fun _ _ =>
    ⟨List.perm_insertionSort _ _, List.sorted_insertionSort _ _,
     List.perm_insertionSort _ _, List.sorted_insertionSort _ _⟩

/-- C6 (amended): on connect the first variant sends exactly one message, a
welcome object that is not an array and carries no product; the unnamed
variant sends nothing on connect and serves the snapshot
`{type: "products", data: products}` only in reply to an explicit
`getProducts` request. -/
theorem C6_connect_behavior :
    (VariantA.connectMessages.length = 1)
  ∧ (VariantA.connectMessages.all
       (fun m => !(Json.isArr m) && Json.tagIs m "welcome" && !(Json.hasKey m "product")) = true)
  ∧ (Unnamed.connectMessages = [])
  ∧ (Unnamed.handleMessage Unnamed.getProductsReq =
       [Json.obj [("type", Json.str "products"), ("data", Json.arr Unnamed.productsList)]])
  ∧ (Unnamed.handleMessage (Json.obj []) = []) :=
  ⟨rfl, by decide, rfl, rfl, rfl⟩

/-- C6 counterexample: the claim says the first message sent to a connecting
subscriber is the catalog snapshot (an array of products); in fact the first
variant's only on-connect message is a non-array welcome object, and the
unnamed variant sends no message at all on connect. -/
theorem C6_first_message_counterexample :
    (VariantA.connectMessages.head?.map Json.isArr = some false)
  ∧ (VariantA.connectMessages.head?.map (fun m => Json.tagIs m "welcome") = some true)
  ∧ (Unnamed.connectMessages.head? = none) :=
  ⟨rfl, rfl, rfl⟩

/-- C1 counterexample: in the `POST /api/upload` variant, a submission with
a committed image but a missing name is rejected with 400 while the
committed blob is NOT deleted - the orphaned blob survives in the uploads
store, contrary to the claimed all-or-none rollback. -/
theorem C1_orphan_blob_counterexample :
    ((VariantA.postUpload exStateA0 exSubNoName).2.1.status = 400)
  ∧ ("1712-rice.jpg" ∈ (VariantA.postUpload exStateA0 exSubNoName).1.blobs)
  ∧ ((VariantA.postUpload exStateA0 exSubNoName).1.rows = []) := by
  decide

/-- C3 counterexample: a submission with non-empty name and contact but no
image is rejected with 400 by the `POST /api/upload` variant (its check also
requires `price` and `image`), so "missing name or contact" is not the exact
failure condition and an image-less submission does not succeed there. -/
theorem C3_imageless_rejected_counterexample :
    (falsy exSubNoImage.name = false)
  ∧ (falsy exSubNoImage.whatsapp = false)
  ∧ ((VariantA.postUpload exStateA0 exSubNoImage).2.1.status = 400)
  ∧ ((VariantA.postUpload exStateA0 exSubNoImage).1.rows = []) := by
  decide

/-- C4 counterexample: a fully successful submission to the
`POST /api/upload` variant (the row is inserted) is answered with
`res.json(...)`, i.e. status 200, not the claimed 201. -/
theorem C4_status_counterexample :
    ((VariantA.postUpload exStateA0 exSubValid).2.1.status = 200)
  ∧ ((VariantA.postUpload exStateA0 exSubValid).2.1.status ≠ 201)
  ∧ ((VariantA.postUpload exStateA0 exSubValid).1.rows.length = 1) := by
  decide

/-- C2 counterexample: a successful insert with no subscriber connected at
insert time sends nothing; a subscriber that connects afterwards receives
only the welcome message, never that product - so a subscriber live "after
the insert" does not receive the product, contrary to the claim. -/
theorem C2_late_subscriber_counterexample :
    ((VariantA.postUpload exStateA0 exSubValid).2.1.status = 200)
  ∧ ((VariantA.postUpload exStateA0 exSubValid).1.rows.length = 1)
  ∧ ((VariantA.uploadEvents exStateA0 exSubValid).countP VariantA.isSendEv = 0)
  ∧ (VariantA.connectMessages.countP (fun m => Json.tagIs m "new-product") = 0) := by
  decide

/-- C5 counterexample: the one message delivered to the OPEN subscriber
during a successful upload has no `event` key at all - its discriminator
key is `type` - refuting the claimed shape `(event, product)`. -/
theorem C5_event_key_counterexample :
    (exSendMsgs.length = 1)
  ∧ (exSendMsgs.all
       (fun m => !(Json.hasKey m "event") && Json.tagIs m "new-product") = true) := by
  decide

/-- C9 counterexample: the second variant persists `parseFloat(price || 0)`
verbatim; submitting the numeric string -5 stores the negative price -5,
refuting the claim that every persisted price is non-negative. -/
theorem C9_negative_price_counterexample :
    ((VariantB.postProducts exStateB1 exSubNegPrice 7).2.status = 201)
  ∧ (((VariantB.postProducts exStateB1 exSubNegPrice 7).1.rows.map VariantB.Row.price)
       = [some (-5 : ℚ)])
  ∧ ((-5 : ℚ) < 0) := by
  have h1 : ((VariantB.postProducts exStateB1 exSubNegPrice 7).1.rows.map VariantB.Row.price)
      = [VariantB.jsPrice (some "-5")] := rfl
  have h2 : VariantB.jsPrice (some "-5")
      = some ((((-1 : ℤ) * (5 : ℕ) : ℤ) : ℚ) * (10 : ℚ) ^ ((0 : ℤ) - (0 : ℕ))) := rfl
  refine ⟨by decide, ?_, by norm_num⟩
  rw [h1, h2]
  norm_num

/-- Helper: every member of a list of naturals is bounded by its
`foldr max 0`. -/
theorem le_foldr_max (l : List ℕ) (x : ℕ) (hx : x ∈ l) : x ≤ l.foldr max 0 := by
  induction l with
  | nil => cases hx
  | cons a t ih =>
    rcases List.mem_cons.mp hx with h | h
    · subst h; exact le_max_left _ _
    · exact le_trans (ih h) (le_max_right _ _)

/-- Helper: the explicit result of a fully valid `POST /api/upload`
request of the first variant. -/
theorem postUpload_valid_eq (s : VariantA.State) (sub : Submission) (f d : String)
    (hf : sub.file = some f) (hd : sub.description = some d)
    (hn : falsy sub.name = false) (hp : falsy sub.price = false)
    (hw : falsy sub.whatsapp = false) :
    VariantA.postUpload s sub =
      ({ rows := { id := VariantA.nextId s.rows, name := sub.name.getD "",
                   description := d, price := sub.price.getD "",
                   image := "/uploads/" ++ f,
                   whatsapp := sub.whatsapp.getD "" } :: s.rows,
         blobs := f :: s.blobs, clients := s.clients },
       ⟨200, .obj [("success", .bool true),
                   ("product", VariantA.mkProductJson (sub.name.getD "") d
                      (sub.price.getD "") ("/uploads/" ++ f) (sub.whatsapp.getD ""))]⟩,
       .blobCommit f :: .insertRow (VariantA.nextId s.rows) ::
         ((s.clients.filter VariantA.Client.ready).map
            (fun c => VariantA.Ev.send c.cid
               (Json.obj [("type", Json.str "new-product"),
                          ("product", VariantA.mkProductJson (sub.name.getD "") d
                             (sub.price.getD "") ("/uploads/" ++ f) (sub.whatsapp.getD ""))])))
         ++ [.respond 200]) := by
  simp [VariantA.postUpload, hf, hd, hn, hp, hw, VariantA.mkProductJson]

/-- Helper: the explicit result of a successful image-less
`POST /api/products` request of the second variant. -/
theorem postProducts_success_noFile (s : VariantB.State) (sub : Submission)
    (now : Nat) (d : String)
    (hf : sub.file = none) (hd : sub.description = some d)
    (hn : falsy sub.name = false) (hw : falsy sub.whatsapp = false)
    (hu : VariantB.userId ∈ s.users) :
    VariantB.postProducts s sub now =
      ({ users := s.users, seq := s.seq + 1,
         rows := { id := s.seq + 1, userId := VariantB.userId,
                   name := sub.name.getD "", description := d,
                   price := VariantB.jsPrice sub.price, imageUrl := none,
                   whatsapp := sub.whatsapp.getD "", createdAt := now } :: s.rows,
         blobs := s.blobs },
       ⟨201, .obj [("message", .str "Product uploaded successfully"),
                   ("imageUrl", .null)]⟩) := by
  simp [VariantB.postProducts, VariantB.insertProduct, hf, hd, hn, hw, hu,
        VariantB.fkEnabled]

/-- C1 (amended): in the `POST /api/products` variant the durable side
effects are all-or-none - a response other than 201 leaves the catalog rows
and the blob store exactly as before (any committed upload is deleted by the
compensating `fs.unlink`), while a 201 response means one new row was
persisted and the committed blob (if an image was attached) is retained.
The `POST /api/upload` variant does not share this guarantee (see the
counterexample). -/
theorem C1_products_all_or_none :
    ∀ (s : VariantB.State) (sub : Submission) (now : Nat),
      (((VariantB.postProducts s sub now).2.status ≠ 201) →
         ((VariantB.postProducts s sub now).1.rows = s.rows
          ∧ (VariantB.postProducts s sub now).1.blobs = s.blobs))
    ∧ (((VariantB.postProducts s sub now).2.status = 201) →
         ((∃ r, (VariantB.postProducts s sub now).1.rows = r :: s.rows)
          ∧ (∀ f, sub.file = some f →
               f ∈ (VariantB.postProducts s sub now).1.blobs))) := by
  intro s sub now
  by_cases hv : (falsy sub.name || falsy sub.whatsapp) = true
  · constructor
    · intro _
      rcases hf : sub.file with _ | f <;>
        simp [VariantB.postProducts, VariantB.unlinkUpload, hf, hv]
    · intro h201
      exfalso
      rcases hf : sub.file with _ | f <;>
        simp [VariantB.postProducts, VariantB.unlinkUpload, hf, hv] at h201
  · rcases hd : sub.description with _ | d
    · constructor
      · intro _
        rcases hf : sub.file with _ | f <;>
          simp [VariantB.postProducts, VariantB.insertProduct, VariantB.unlinkUpload,
                hf, hd, hv]
      · intro h201
        exfalso
        rcases hf : sub.file with _ | f <;>
          simp [VariantB.postProducts, VariantB.insertProduct, VariantB.unlinkUpload,
                hf, hd, hv] at h201
    · by_cases hu : VariantB.userId ∈ s.users
      · constructor
        · intro h201
          exfalso
          rcases hf : sub.file with _ | f <;>
            simp [VariantB.postProducts, VariantB.insertProduct, VariantB.unlinkUpload,
                  hf, hd, hv, hu, VariantB.fkEnabled] at h201
        · intro _
          rcases hf : sub.file with _ | f <;>
            simp [VariantB.postProducts, VariantB.insertProduct, VariantB.unlinkUpload,
                  hf, hd, hv, hu, VariantB.fkEnabled]
      · constructor
        · intro _
          rcases hf : sub.file with _ | f <;>
            simp [VariantB.postProducts, VariantB.insertProduct, VariantB.unlinkUpload,
                  hf, hd, hv, hu, VariantB.fkEnabled]
        · intro h201
          exfalso
          rcases hf : sub.file with _ | f <;>
            simp [VariantB.postProducts, VariantB.insertProduct, VariantB.unlinkUpload,
                  hf, hd, hv, hu, VariantB.fkEnabled] at h201

/-- C1 witness: a concrete missing-name submission with a committed image,
run through `POST /api/products`, is not answered 201 and leaves rows and
blobs untouched. -/
theorem C1_products_all_or_none_witness :
    (VariantB.postProducts exStateB0 exSubNoName 3).2.status ≠ 201
  ∧ ((VariantB.postProducts exStateB0 exSubNoName 3).1.rows = exStateB0.rows
     ∧ (VariantB.postProducts exStateB0 exSubNoName 3).1.blobs = exStateB0.blobs) :=
  ⟨by decide, (C1_products_all_or_none exStateB0 exSubNoName 3).1 (by decide)⟩

/-- C10: with `PRAGMA foreign_keys = ON` and the fixed placeholder
`user_id = 1`, any state whose `users` table has no row with id 1 admits no
product insert: every submission leaves the catalog unchanged, and every
submission that passes field validation is answered 500. -/
theorem C10_fk_enforced :
    ∀ (s : VariantB.State) (sub : Submission) (now : Nat),
      VariantB.userId ∉ s.users →
        ((VariantB.postProducts s sub now).1.rows = s.rows
         ∧ (falsy sub.name = false → falsy sub.whatsapp = false →
              (VariantB.postProducts s sub now).2.status = 500)) := by
  intro s sub now hu
  constructor
  · by_cases hv : (falsy sub.name || falsy sub.whatsapp) = true
    · rcases hf : sub.file with _ | f <;>
        simp [VariantB.postProducts, VariantB.unlinkUpload, hf, hv]
    · rcases hd : sub.description with _ | d <;>
        rcases hf : sub.file with _ | f <;>
          simp [VariantB.postProducts, VariantB.insertProduct, VariantB.unlinkUpload,
                hf, hd, hv, hu, VariantB.fkEnabled]
  · intro hn hw
    have hv : (falsy sub.name || falsy sub.whatsapp) = true → False := by
      simp [hn, hw]
    rcases hd : sub.description with _ | d <;>
      rcases hf : sub.file with _ | f <;>
        simp [VariantB.postProducts, VariantB.insertProduct, VariantB.unlinkUpload,
              hf, hd, hn, hw, hu, VariantB.fkEnabled]

/-- C10 witness: against a fresh database with no registered users, the
concrete valid image-less submission is answered 500 and creates no row. -/
theorem C10_fk_enforced_witness :
    VariantB.userId ∉ exStateB0.users
  ∧ ((VariantB.postProducts exStateB0 exSubNoImage 3).1.rows = exStateB0.rows
     ∧ (falsy exSubNoImage.name = false → falsy exSubNoImage.whatsapp = false →
          (VariantB.postProducts exStateB0 exSubNoImage 3).2.status = 500)) :=
  ⟨by decide, C10_fk_enforced exStateB0 exSubNoImage 3 (by decide)⟩

/-- C3 (amended): in the `POST /api/products` variant, the 400 validation
failure happens exactly when `name` or the contact field is missing or
empty, and a 400 leaves the catalog unchanged; a submission with name,
contact and description present and no image succeeds with 201 and a null
`imageRef` provided a seller with id 1 exists (absent `description` or the
missing seller row instead yields a 500).  The `POST /api/upload` variant
additionally requires `price` and an image: every image-less submission is
rejected with 400 there. -/
theorem C3_validation :
    (∀ (s : VariantB.State) (sub : Submission) (now : Nat),
       (((VariantB.postProducts s sub now).2.status = 400)
          ↔ (falsy sub.name = true ∨ falsy sub.whatsapp = true))
       ∧ (((VariantB.postProducts s sub now).2.status = 400) →
            (VariantB.postProducts s sub now).1.rows = s.rows)
       ∧ (∀ d, sub.description = some d → falsy sub.name = false →
            falsy sub.whatsapp = false → VariantB.userId ∈ s.users →
            sub.file = none →
              ((VariantB.postProducts s sub now).2.status = 201
               ∧ ∃ r, (VariantB.postProducts s sub now).1.rows = r :: s.rows
                   ∧ VariantB.Row.imageUrl r = none)))
  ∧ (∀ (sA : VariantA.State) (subA : Submission), subA.file = none →
       (VariantA.postUpload sA subA).2.1.status = 400) := by
  constructor
  · intro s sub now
    refine ⟨?_, ?_, ?_⟩
    · constructor
      · intro h400
        by_contra hcon
        push_neg at hcon
        obtain ⟨hn, hw⟩ := hcon
        have hn' : falsy sub.name = false := by
          cases h : falsy sub.name
          · rfl
          · exact absurd h hn
        have hw' : falsy sub.whatsapp = false := by
          cases h : falsy sub.whatsapp
          · rfl
          · exact absurd h hw
        by_cases hu : VariantB.userId ∈ s.users <;>
          rcases hd : sub.description with _ | d <;>
            rcases hf : sub.file with _ | f <;>
              simp [VariantB.postProducts, VariantB.insertProduct, VariantB.unlinkUpload,
                    hf, hd, hn', hw', hu, VariantB.fkEnabled] at h400
      · intro hv
        have hv' : (falsy sub.name || falsy sub.whatsapp) = true := by
          rcases hv with h | h <;> simp [h]
        rcases hf : sub.file with _ | f <;>
          simp [VariantB.postProducts, VariantB.unlinkUpload, hf, hv']
    · intro h400
      rcases h : (falsy sub.name || falsy sub.whatsapp) with _ | _
      · exfalso
        have hn : falsy sub.name = false := by
          cases hx : falsy sub.name
          · rfl
          · rw [hx] at h; simp at h
        have hw : falsy sub.whatsapp = false := by
          cases hx : falsy sub.whatsapp
          · rfl
          · rw [hx] at h; simp at h
        by_cases hu : VariantB.userId ∈ s.users <;>
          rcases hd : sub.description with _ | d <;>
            rcases hf : sub.file with _ | f <;>
              simp [VariantB.postProducts, VariantB.insertProduct, VariantB.unlinkUpload,
                    hf, hd, hn, hw, hu, VariantB.fkEnabled] at h400
      · rcases hf : sub.file with _ | f <;>
          simp [VariantB.postProducts, VariantB.unlinkUpload, hf, h]
    · intro d hd hn hw hu hf
      rw [postProducts_success_noFile s sub now d hf hd hn hw hu]
      exact ⟨rfl, _, rfl, rfl⟩
  · intro sA subA hf
    by_cases hv : (falsy subA.name || falsy subA.price || falsy subA.whatsapp) = true <;>
      simp [VariantA.postUpload, hf, hv]

/-- C3 witness: the spec's Rice scenario (name, price, contact, description,
no image) against a database where seller 1 exists: answered 201, one new
row, null image reference; and the same scenario is answered 400 by the
`POST /api/upload` variant. -/
theorem C3_validation_witness :
    (exSubNoImage.description = some "desc"
     ∧ falsy exSubNoImage.name = false
     ∧ falsy exSubNoImage.whatsapp = false
     ∧ VariantB.userId ∈ exStateB1.users
     ∧ exSubNoImage.file = none)
  ∧ ((VariantB.postProducts exStateB1 exSubNoImage 3).2.status = 201
     ∧ ∃ r, (VariantB.postProducts exStateB1 exSubNoImage 3).1.rows = r :: exStateB1.rows
         ∧ VariantB.Row.imageUrl r = none)
  ∧ (VariantA.postUpload exStateA0 exSubNoImage).2.1.status = 400 :=
  ⟨⟨rfl, rfl, rfl, by decide, rfl⟩,
   (C3_validation.1 exStateB1 exSubNoImage 3).2.2 "desc" rfl rfl rfl (by decide) rfl,
   C3_validation.2 exStateA0 exSubNoImage rfl⟩

/-- C9 (amended): the persisted price of the second variant is
`parseFloat(price || 0)` verbatim: an absent or empty price field is stored
as 0, a non-numeric string parses to NaN (persisted as SQL NULL, not 0),
and numeric strings - including negative ones - are stored as parsed, so no
non-negativity holds.  The spec's numeric scenario value 14000 is stored as
14000. -/
theorem C9_price_parsing :
    (∀ (s : VariantB.State) (sub : Submission) (now : Nat) (d : String),
       sub.description = some d → falsy sub.name = false →
       falsy sub.whatsapp = false → VariantB.userId ∈ s.users →
       sub.file = none →
         ∃ r, (VariantB.postProducts s sub now).1.rows = r :: s.rows
           ∧ VariantB.Row.price r = VariantB.jsPrice sub.price)
  ∧ (VariantB.jsPrice none = some 0)
  ∧ (VariantB.jsPrice (some "") = some 0)
  ∧ (parseFloat "abc" = none)
  ∧ (VariantB.jsPrice (some "14000") = some 14000) := by
  refine ⟨?_, rfl, rfl, rfl, ?_⟩
  · intro s sub now d hd hn hw hu hf
    rw [postProducts_success_noFile s sub now d hf hd hn hw hu]
    exact ⟨_, rfl, rfl⟩
  · have h : VariantB.jsPrice (some "14000")
        = some ((((1 : ℤ) * (14000 : ℕ) : ℤ) : ℚ) * (10 : ℚ) ^ ((0 : ℤ) - (0 : ℕ))) := rfl
    rw [h]
    norm_num

/-- C9 witness: the concrete negative-price submission is persisted with
price `jsPrice (some "-5")`, i.e. the parsed value of the raw field. -/
theorem C9_price_parsing_witness :
    (exSubNegPrice.description = some "d"
     ∧ falsy exSubNegPrice.name = false
     ∧ falsy exSubNegPrice.whatsapp = false
     ∧ VariantB.userId ∈ exStateB1.users
     ∧ exSubNegPrice.file = none)
  ∧ ∃ r, (VariantB.postProducts exStateB1 exSubNegPrice 7).1.rows = r :: exStateB1.rows
      ∧ VariantB.Row.price r = VariantB.jsPrice exSubNegPrice.price :=
  ⟨⟨rfl, rfl, rfl, by decide, rfl⟩,
   C9_price_parsing.1 exStateB1 exSubNegPrice 7 "d" rfl rfl rfl (by decide) rfl⟩

/-- C4 (amended): no success response carries the canonical product with
store-assigned id and timestamp.  The `POST /api/upload` variant answers a
successful submission with status 200 and a `product` object that has
neither an `id` nor a `createdAt` field; the `POST /api/products` variant
answers 201 but its body carries only `message` and `imageUrl` - the
`productId` key is absent (the source reads the misspelled property
`lastInsertRowId` of better-sqlite3's RunResult, so `JSON.stringify` drops
the undefined value) and no `createdAt` is returned. -/
theorem C4_success_response :
    (∀ (s : VariantA.State) (sub : Submission) (f d : String),
       sub.file = some f → sub.description = some d →
       falsy sub.name = false → falsy sub.price = false →
       falsy sub.whatsapp = false →
         ((VariantA.postUpload s sub).2.1.status = 200
          ∧ ∃ p, (VariantA.postUpload s sub).2.1.body.lookup "product" = some p
              ∧ p.lookup "id" = none
              ∧ p.lookup "createdAt" = none
              ∧ p.lookup "name" = some (Json.str (sub.name.getD ""))))
  ∧ (∀ (s : VariantB.State) (sub : Submission) (now : Nat),
       (VariantB.postProducts s sub now).2.status = 201 →
         ((VariantB.postProducts s sub now).2.body.lookup "productId" = none
          ∧ (VariantB.postProducts s sub now).2.body.lookup "createdAt" = none
          ∧ (VariantB.postProducts s sub now).2.body.lookup "message"
              = some (Json.str "Product uploaded successfully")
          ∧ ((VariantB.postProducts s sub now).2.body.lookup "imageUrl").isSome = true)) := by
  constructor
  · intro s sub f d hf hd hn hp hw
    rw [postUpload_valid_eq s sub f d hf hd hn hp hw]
    exact ⟨rfl, _, rfl, rfl, rfl, rfl⟩
  · intro s sub now h201
    by_cases hv : (falsy sub.name || falsy sub.whatsapp) = true
    · exfalso
      rcases hf : sub.file with _ | f <;>
        simp [VariantB.postProducts, VariantB.unlinkUpload, hf, hv] at h201
    · by_cases hu : VariantB.userId ∈ s.users <;>
        rcases hd : sub.description with _ | d <;>
          rcases hf : sub.file with _ | f <;>
            simp [VariantB.postProducts, VariantB.insertProduct, VariantB.unlinkUpload,
                  hf, hd, hv, hu, VariantB.fkEnabled, Json.lookup] at h201 ⊢

/-- C4 witness: the concrete valid submission through each variant, with
the response facts instantiated. -/
theorem C4_success_response_witness :
    (exSubValid.file = some "1712-rice.jpg"
     ∧ exSubValid.description = some "Premium long grain rice"
     ∧ falsy exSubValid.name = false
     ∧ falsy exSubValid.price = false
     ∧ falsy exSubValid.whatsapp = false)
  ∧ ((VariantA.postUpload exStateA0 exSubValid).2.1.status = 200
     ∧ ∃ p, (VariantA.postUpload exStateA0 exSubValid).2.1.body.lookup "product" = some p
         ∧ p.lookup "id" = none
         ∧ p.lookup "createdAt" = none
         ∧ p.lookup "name" = some (Json.str (exSubValid.name.getD ""))) :=
  ⟨⟨rfl, rfl, rfl, rfl, rfl⟩,
   C4_success_response.1 exStateA0 exSubValid "1712-rice.jpg" "Premium long grain rice"
     rfl rfl rfl rfl rfl⟩

/-- Helper: in a client list with pairwise-distinct ids containing `c`, the
number of OPEN clients carrying `c`'s id is 1 when `c` is OPEN and 0
otherwise. -/
theorem countP_ready_cid (l : List VariantA.Client) (c : VariantA.Client)
    (hnd : (l.map VariantA.Client.cid).Nodup) (hc : c ∈ l) :
    l.countP (fun d => (d.cid == c.cid) && d.ready)
      = if c.ready = true then 1 else 0 := by
  induction l with
  | nil => cases hc
  | cons a t ih =>
    rw [List.map_cons, List.nodup_cons] at hnd
    obtain ⟨ha, hndt⟩ := hnd
    rw [List.countP_cons]
    rcases List.mem_cons.mp hc with rfl | hct
    · have ht : t.countP (fun d => (d.cid == c.cid) && d.ready) = 0 := by
        rw [List.countP_eq_zero]
        intro d hd hpd
        simp only [Bool.and_eq_true, beq_iff_eq] at hpd
        exact ha (by rw [← hpd.1]; exact List.mem_map_of_mem _ hd)
      rw [ht]
      simp
    · have hac : ((a.cid == c.cid) && a.ready) = false := by
        have hne : a.cid ≠ c.cid := by
          intro he
          exact ha (by rw [he]; exact List.mem_map_of_mem _ hct)
        simp [hne]
      rw [ih hndt hct, hac]
      simp

/-- C5 (amended): every message delivered over the real-time channel during
a successful upload is the object `(type: "new-product", product)` - the
discriminator key is `type`, there is no `event` key, and the `product`
payload echoes the submitted fields without any store-assigned `id` or
`createdAt`. -/
theorem C5_broadcast_shape :
    ∀ (s : VariantA.State) (sub : Submission) (f d : String),
      sub.file = some f → sub.description = some d →
      falsy sub.name = false → falsy sub.price = false →
      falsy sub.whatsapp = false →
      ∀ m ∈ (VariantA.uploadEvents s sub).filterMap VariantA.sendPayload,
        (Json.hasKey m "event" = false)
        ∧ (Json.tagIs m "new-product" = true)
        ∧ ∃ p, m.lookup "product" = some p
            ∧ p.lookup "id" = none
            ∧ p.lookup "createdAt" = none
            ∧ p.lookup "name" = some (Json.str (sub.name.getD "")) := by
  intro s sub f d hf hd hn hp hw m hm
  rw [VariantA.uploadEvents, postUpload_valid_eq s sub f d hf hd hn hp hw] at hm
  rcases List.mem_filterMap.mp hm with ⟨e, he, hpe⟩
  rcases List.mem_cons.mp he with rfl | he1
  · exact absurd hpe (by simp [VariantA.sendPayload])
  rcases List.mem_cons.mp he1 with rfl | he2
  · exact absurd hpe (by simp [VariantA.sendPayload])
  rcases List.mem_append.mp he2 with he3 | he4
  · rcases List.mem_map.mp he3 with ⟨c, _, rfl⟩
    have hme : Json.obj [("type", Json.str "new-product"),
        ("product", VariantA.mkProductJson (sub.name.getD "") d
           (sub.price.getD "") ("/uploads/" ++ f) (sub.whatsapp.getD ""))] = m := by
      exact Option.some.inj hpe
    rw [← hme]
    exact ⟨rfl, rfl, ⟨_, rfl, rfl, rfl, rfl⟩⟩
  · rcases List.mem_singleton.mp he4 with rfl
    exact absurd hpe (by simp [VariantA.sendPayload])

/-- C5 witness: the concrete delivered message of the fixture run. -/
theorem C5_broadcast_shape_witness :
    (exSubValid.file = some "1712-rice.jpg"
     ∧ exSubValid.description = some "Premium long grain rice"
     ∧ falsy exSubValid.name = false
     ∧ falsy exSubValid.price = false
     ∧ falsy exSubValid.whatsapp = false
     ∧ exBroadcastMsg ∈ (VariantA.uploadEvents exStateA2 exSubValid).filterMap
         VariantA.sendPayload)
  ∧ ((Json.hasKey exBroadcastMsg "event" = false)
     ∧ (Json.tagIs exBroadcastMsg "new-product" = true)
     ∧ ∃ p, exBroadcastMsg.lookup "product" = some p
         ∧ p.lookup "id" = none
         ∧ p.lookup "createdAt" = none
         ∧ p.lookup "name" = some (Json.str (exSubValid.name.getD ""))) :=
  ⟨⟨rfl, rfl, rfl, rfl, rfl, List.mem_singleton.mpr rfl⟩,
   C5_broadcast_shape exStateA2 exSubValid "1712-rice.jpg" "Premium long grain rice"
     rfl rfl rfl rfl rfl exBroadcastMsg (List.mem_singleton.mpr rfl)⟩

/-- Helper: the explicit event trace of a fully valid `POST /api/upload`
request. -/
theorem uploadEvents_valid_eq (s : VariantA.State) (sub : Submission) (f d : String)
    (hf : sub.file = some f) (hd : sub.description = some d)
    (hn : falsy sub.name = false) (hp : falsy sub.price = false)
    (hw : falsy sub.whatsapp = false) :
    VariantA.uploadEvents s sub =
      VariantA.Ev.blobCommit f :: VariantA.Ev.insertRow (VariantA.nextId s.rows) ::
        ((s.clients.filter VariantA.Client.ready).map
           (fun c => VariantA.Ev.send c.cid
              (Json.obj [("type", Json.str "new-product"),
                         ("product", VariantA.mkProductJson (sub.name.getD "") d
                            (sub.price.getD "") ("/uploads/" ++ f)
                            (sub.whatsapp.getD ""))])))
        ++ [VariantA.Ev.respond 200] := by
  rw [VariantA.uploadEvents, postUpload_valid_eq s sub f d hf hd hn hp hw]

/-- C2 (amended): on a successful upload in the broadcasting variant, every
client OPEN at insert time is sent the new product exactly once and
non-OPEN clients receive nothing; the event trace opens with the blob
commit, no send precedes the row insert (blob commit happens-before insert
happens-before every send), and exactly one insert occurs.  Clients that
connect only after the insert receive nothing for it (see the
counterexample), and the `POST /api/products` variant never broadcasts. -/
theorem C2_insert_then_broadcast :
    ∀ (s : VariantA.State) (sub : Submission) (f d : String),
      sub.file = some f → sub.description = some d →
      falsy sub.name = false → falsy sub.price = false →
      falsy sub.whatsapp = false →
      (s.clients.map VariantA.Client.cid).Nodup →
        ((∀ c ∈ s.clients, c.ready = true →
            (VariantA.uploadEvents s sub).countP (VariantA.isSendTo c.cid) = 1)
        ∧ (∀ c ∈ s.clients, c.ready = false →
            (VariantA.uploadEvents s sub).countP (VariantA.isSendTo c.cid) = 0)
        ∧ (((VariantA.uploadEvents s sub).takeWhile
              (fun e => !(VariantA.isInsertEv e))).all
                (fun e => !(VariantA.isSendEv e)) = true)
        ∧ ((VariantA.uploadEvents s sub).countP VariantA.isInsertEv = 1)
        ∧ ((VariantA.uploadEvents s sub).head?
             = some (VariantA.Ev.blobCommit f))) := by
  intro s sub f d hf hd hn hp hw hnd
  rw [uploadEvents_valid_eq s sub f d hf hd hn hp hw]
  refine ⟨?_, ?_, rfl, ?_, rfl⟩
  · intro c hc hcr
    rw [List.countP_append, List.countP_cons, List.countP_cons,
        List.countP_map, List.countP_filter]
    have hcnt := countP_ready_cid s.clients c hnd hc
    simp [VariantA.isSendTo, Function.comp, hcnt, hcr]
  · intro c hc hcr
    rw [List.countP_append, List.countP_cons, List.countP_cons,
        List.countP_map, List.countP_filter]
    have hcnt := countP_ready_cid s.clients c hnd hc
    simp [VariantA.isSendTo, Function.comp, hcnt, hcr]
  · rw [List.countP_append, List.countP_cons, List.countP_cons,
        List.countP_map]
    simp [VariantA.isInsertEv, Function.comp]

/-- C2 witness: the fixture run against one OPEN and one non-OPEN client. -/
theorem C2_insert_then_broadcast_witness :
    (exSubValid.file = some "1712-rice.jpg"
     ∧ exSubValid.description = some "Premium long grain rice"
     ∧ falsy exSubValid.name = false
     ∧ falsy exSubValid.price = false
     ∧ falsy exSubValid.whatsapp = false
     ∧ (exStateA2.clients.map VariantA.Client.cid).Nodup)
  ∧ ((∀ c ∈ exStateA2.clients, c.ready = true →
        (VariantA.uploadEvents exStateA2 exSubValid).countP
          (VariantA.isSendTo c.cid) = 1)
     ∧ (∀ c ∈ exStateA2.clients, c.ready = false →
          (VariantA.uploadEvents exStateA2 exSubValid).countP
            (VariantA.isSendTo c.cid) = 0)
     ∧ (((VariantA.uploadEvents exStateA2 exSubValid).takeWhile
           (fun e => !(VariantA.isInsertEv e))).all
             (fun e => !(VariantA.isSendEv e)) = true)
     ∧ ((VariantA.uploadEvents exStateA2 exSubValid).countP
          VariantA.isInsertEv = 1)
     ∧ ((VariantA.uploadEvents exStateA2 exSubValid).head?
          = some (VariantA.Ev.blobCommit "1712-rice.jpg"))) :=
  ⟨⟨rfl, rfl, rfl, rfl, rfl, by decide⟩,
   C2_insert_then_broadcast exStateA2 exSubValid "1712-rice.jpg"
     "Premium long grain rice" rfl rfl rfl rfl rfl (by decide)⟩

/-- Helper: one `POST /api/products` request either leaves the sequence
counter unchanged and does not answer 201, or advances it by one and
answers 201. -/
theorem postProducts_seq_cases (s : VariantB.State) (sub : Submission) (now : Nat) :
    ((VariantB.postProducts s sub now).1.seq = s.seq
       ∧ (VariantB.postProducts s sub now).2.status ≠ 201)
  ∨ ((VariantB.postProducts s sub now).1.seq = s.seq + 1
       ∧ (VariantB.postProducts s sub now).2.status = 201) := by
  by_cases hv : (falsy sub.name || falsy sub.whatsapp) = true
  · left
    rcases hf : sub.file with _ | f <;>
      simp [VariantB.postProducts, VariantB.unlinkUpload, hf, hv]
  · rcases hd : sub.description with _ | d
    · left
      rcases hf : sub.file with _ | f <;>
        simp [VariantB.postProducts, VariantB.insertProduct, VariantB.unlinkUpload,
              hf, hd, hv]
    · by_cases hu : VariantB.userId ∈ s.users
      · right
        rcases hf : sub.file with _ | f <;>
          simp [VariantB.postProducts, VariantB.insertProduct, VariantB.unlinkUpload,
                hf, hd, hv, hu, VariantB.fkEnabled]
      · left
        rcases hf : sub.file with _ | f <;>
          simp [VariantB.postProducts, VariantB.insertProduct, VariantB.unlinkUpload,
                hf, hd, hv, hu, VariantB.fkEnabled]

/-- Helper: over any request sequence, the ids collected by `VariantB.run`
are pairwise increasing, all exceed the starting sequence value, and the
sequence counter never decreases. -/
theorem runB_facts (reqs : List (Submission × Nat)) :
    ∀ (s : VariantB.State),
      List.Pairwise (· < ·) (VariantB.run s reqs).2
      ∧ (∀ a ∈ (VariantB.run s reqs).2, s.seq < a)
      ∧ s.seq ≤ (VariantB.run s reqs).1.seq := by
  induction reqs with
  | nil =>
    intro s
    refine ⟨List.Pairwise.nil, ?_, le_refl _⟩
    intro a ha
    simp [VariantB.run] at ha
  | cons q tl ih =>
    intro s
    obtain ⟨sub, now⟩ := q
    obtain ⟨h1, h2, h3⟩ := ih (VariantB.postProducts s sub now).1
    rcases postProducts_seq_cases s sub now with ⟨hseq, hst⟩ | ⟨hseq, hst⟩
    · have hbeq : ((VariantB.postProducts s sub now).2.status == 201) = false := by
        simpa using hst
      have hrun : VariantB.run s ((sub, now) :: tl)
          = VariantB.run (VariantB.postProducts s sub now).1 tl := by
        simp [VariantB.run, hbeq]
      rw [hrun]
      refine ⟨h1, ?_, ?_⟩
      · intro a ha
        have := h2 a ha
        omega
      · omega
    · have hbeq : ((VariantB.postProducts s sub now).2.status == 201) = true := by
        simpa using hst
      have hrun : VariantB.run s ((sub, now) :: tl)
          = ((VariantB.run (VariantB.postProducts s sub now).1 tl).1,
             (VariantB.postProducts s sub now).1.seq
               :: (VariantB.run (VariantB.postProducts s sub now).1 tl).2) := by
        simp [VariantB.run, hbeq]
      rw [hrun]
      refine ⟨List.pairwise_cons.mpr ⟨h2, h1⟩, ?_, ?_⟩
      · intro a ha
        rcases List.mem_cons.mp ha with rfl | ha2
        · omega
        · have := h2 a ha2
          omega
      · show s.seq ≤ (VariantB.run (VariantB.postProducts s sub now).1 tl).1.seq
        omega

/-- C8: ids are assigned exactly once, monotonically.  In the AUTOINCREMENT
variant, over any sequence of requests against a fresh database the list of
assigned ids is pairwise strictly increasing (hence no id is ever reused);
in the other variant every successful insert appends a row whose id is
strictly greater than the id of every existing row. -/
theorem C8_monotonic_ids :
    (∀ (users : List Nat) (reqs : List (Submission × Nat)),
        List.Pairwise (· < ·) (VariantB.run (VariantB.init users) reqs).2)
  ∧ (∀ (s : VariantA.State) (sub : Submission),
        (VariantA.postUpload s sub).2.1.status = 200 →
          ∃ r, (VariantA.postUpload s sub).1.rows = r :: s.rows
            ∧ ∀ q ∈ s.rows, q.id < VariantA.Row.id r) := by
  constructor
  · intro users reqs
    exact (runB_facts reqs (VariantB.init users)).1
  · intro s sub hst
    rcases hf : sub.file with _ | f
    · exfalso
      simp [VariantA.postUpload, hf] at hst
    · cases hn : falsy sub.name with
      | true =>
        exfalso
        simp [VariantA.postUpload, hf, hn] at hst
      | false =>
        cases hp : falsy sub.price with
        | true =>
          exfalso
          simp [VariantA.postUpload, hf, hn, hp] at hst
        | false =>
          cases hw : falsy sub.whatsapp with
          | true =>
            exfalso
            simp [VariantA.postUpload, hf, hn, hp, hw] at hst
          | false =>
            rcases hd : sub.description with _ | d
            · exfalso
              simp [VariantA.postUpload, hf, hn, hp, hw, hd] at hst
            · rw [postUpload_valid_eq s sub f d hf hd hn hp hw]
              exact ⟨_, rfl, fun q hq =>
                Nat.lt_succ_of_le (le_foldr_max _ _ (List.mem_map_of_mem _ hq))⟩

/-- C8 witness: the concrete valid upload against the empty first-variant
state inserts a row whose id exceeds every pre-existing id. -/
theorem C8_monotonic_ids_witness :
    ((VariantA.postUpload exStateA0 exSubValid).2.1.status = 200)
  ∧ ∃ r, (VariantA.postUpload exStateA0 exSubValid).1.rows = r :: exStateA0.rows
      ∧ ∀ q ∈ exStateA0.rows, q.id < VariantA.Row.id r :=
  ⟨by decide, C8_monotonic_ids.2 exStateA0 exSubValid (by decide)⟩
